import Mathlib

/-!
Verification of the `errorHandling` module of launchventures/notebook
(src/js/src/errorHandling.ts): a shallow embedding of its five exported
functions and proofs of the specified properties.

Modelling conventions:
* JavaScript numbers are modelled as integers (`Int`); every number used by
  the module is integral.
* A call either returns normally or throws; this is `JSOutcome`.
* The untyped `user` argument of the greeting functions is either nullish
  (`null` or `undefined`) or an object carrying a `name` property, whose
  value ranges over the JavaScript primitives `JSVal`.  Reading an absent
  `name` property yields `undefined`, so an absent field and an explicit
  `undefined` field are identified.
* An asynchronous lookup is modelled by its settled outcome: variant A
  (`getQuotation1`) receives a promise that either resolves with user
  details or rejects with some reason; variant B (`getQuotation2`) receives
  a promise that always resolves with an `Either` value, as its fp-ts type
  demands.
-/

namespace ErrorHandling

/-- A JavaScript primitive value, as it can occur in the untyped `name`
property of the `user` argument. -/
inductive JSVal where
  | undefined
  | null
  | str (s : String)
  | num (n : Int)
  | boolean (b : Bool)
  deriving DecidableEq

/-- The untyped `user` argument of the greeting functions: either nullish
(`null` or `undefined`), or an object whose `name` property reads as the
given `JSVal` (an object without a `name` field reads `undefined`). -/
inductive UserInput where
  | nullish
  | obj (name : JSVal)
  deriving DecidableEq

/-- Outcome of calling a JavaScript function: a normal return of a value, or
a thrown (uncaught) exception. -/
inductive JSOutcome (α : Type) where
  | ret (a : α)
  | thrown
  deriving DecidableEq

/-- Ramda `_.isNil`: true exactly for `null` and `undefined`. -/
def isNil : JSVal → Bool
  | .undefined => true
  | .null => true
  | _ => false

/-- JavaScript `s.split(' ')[0]`: the characters of `s` before the first
space character; the whole of `s` when it contains no space.  (`split`
always returns a non-empty array, so the index access never fails.) -/
def splitSpaceHead (s : String) : String :=
  String.mk (s.data.takeWhile (fun c => c != ' '))

/-- Source: `squareOfSecondElement(list)` returns `_.isNil(i) ? 0 : i * i`
where `i = list[1]`.  Indexing a JavaScript array out of range yields
`undefined`, which is nil, so the out-of-range case returns 0. -/
def squareOfSecondElement (list : List Int) : Int :=
  match list[1]? with
  | none => 0
  | some i => i * i

/-- The body of the `try` block of `getGreeting`:
`'Hi ' + user.name.split(' ')[0]`.  Reading `.name` on a nullish user throws
a TypeError, and calling `.split` on a nil or non-string value throws a
TypeError; only a string name returns normally. -/
def greetTryBody : UserInput → JSOutcome String
  | .nullish => .thrown
  | .obj name =>
    match name with
    | .str s => .ret ("Hi " ++ splitSpaceHead s)
    | _ => .thrown

/-- Source: `getGreeting` (EAFP style) wraps `greetTryBody` in
`try`/`catch`, returning `'Hi '` whenever the body throws. -/
def getGreeting (user : UserInput) : JSOutcome String :=
  match greetTryBody user with
  | .ret s => .ret s
  | .thrown => .ret "Hi "

/-- Source: `getGreeting1` (LBYL style).  `const name = user.name` throws on
a nullish user (no `try` protects it); otherwise the nil check guards the
split, but a non-nil non-string name still reaches
`user.name.split(' ')[0]`, which throws. -/
def getGreeting1 : UserInput → JSOutcome String
  | .nullish => .thrown
  | .obj name =>
    if isNil name then .ret "Hi "
    else
      match name with
      | .str s => .ret ("Hi " ++ splitSpaceHead s)
      | _ => .thrown

/-- The `UserDetails` record of the source. -/
structure UserDetails where
  name : String
  email : String
  age : Int
  deriving DecidableEq

/-- Settled outcome of the variant-A lookup promise: it either resolves with
user details or rejects, carrying an arbitrary reason. -/
inductive LookupOutcome where
  | resolved (d : UserDetails)
  | rejected (reason : String)
  deriving DecidableEq

/-- Source: `getQuotation1`.  The `await` and the age branch sit inside
`try`; any rejection is caught, logged, and the function then returns 0. -/
def getQuotation1 (userEmail : String)
    (getUserDetails : String → LookupOutcome) : Int :=
  match getUserDetails userEmail with
  | .resolved userDetails => if userDetails.age < 30 then 500 else 300
  | .rejected _ => 0

/-- The `UserServiceErrors` union of the source. -/
inductive UserServiceErrors where
  | userNotFound
  | serviceNotAvailable
  deriving DecidableEq

/-- The fp-ts `Either` type: `left` carries the failure, `right` the
success. -/
inductive Either (α β : Type) where
  | left (a : α)
  | right (b : β)
  deriving DecidableEq

/-- Source: `getQuotation2`.  The lookup always resolves with an `Either`;
`isRight` selects the success branch with the age rule, otherwise 0. -/
def getQuotation2 (userEmail : String)
    (getUserDetails : String → Either UserServiceErrors UserDetails) : Int :=
  match getUserDetails userEmail with
  | .right userDetails => if userDetails.age < 30 then 500 else 300
  | .left _ => 0

/-- Modelled from the spec: the first whitespace-delimited token of a name,
per the contract sentence of section 4.2 ("the first whitespace-delimited
token of the name") — the characters before the first whitespace character
(space, tab, newline, ...).  Used only to compare the spec wording with the
code, which splits on the space character alone. -/
def specFirstWhitespaceToken (s : String) : String :=
  String.mk (s.data.takeWhile (fun c => !c.isWhitespace))



/-- C2: squareOfSecondElement returns 0 for lists with fewer than 2
elements, and the square of the element at index 1 otherwise. -/
theorem squareOfSecondElement_spec (list : List Int) :
    (list.length < 2 → squareOfSecondElement list = 0) ∧
    (∀ h : 1 < list.length,
      squareOfSecondElement list = list.get ⟨1, h⟩ * list.get ⟨1, h⟩) := by
  constructor
  · intro h
    have h1 : list[1]? = none := List.getElem?_eq_none (by omega)
    simp [squareOfSecondElement, h1]
  · intro h
    have h1 : list[1]? = some (list.get ⟨1, h⟩) := by
      rw [List.getElem?_eq_getElem h]
      simp
    simp [squareOfSecondElement, h1]

/-- C2 witness. -/
theorem squareOfSecondElement_spec_witness :
    squareOfSecondElement [1] = 0 ∧ squareOfSecondElement [1, 2] = 4 := by
  refine ⟨(squareOfSecondElement_spec [1]).1 (by decide), ?_⟩
  have h := (squareOfSecondElement_spec [1, 2]).2 (by decide)
  simpa using h

/-- C1 counterexample: on a nullish user the two greeting implementations do
not return the same string: getGreeting returns normally while getGreeting1
throws. -/
theorem getGreeting_ne_getGreeting1_on_nullish :
    getGreeting UserInput.nullish = JSOutcome.ret "Hi " ∧
    getGreeting1 UserInput.nullish = JSOutcome.thrown ∧
    getGreeting UserInput.nullish ≠ getGreeting1 UserInput.nullish := by
  decide

/-- C1 amended: on every user object whose name is missing (undefined),
null, or a string, getGreeting and getGreeting1 agree. -/
theorem getGreeting_eq_getGreeting1_on_safe_names (name : JSVal)
    (h : name = JSVal.undefined ∨ name = JSVal.null ∨ ∃ s, name = JSVal.str s) :
    getGreeting (UserInput.obj name) = getGreeting1 (UserInput.obj name) := by
  rcases h with h | h | ⟨s, h⟩ <;> subst h <;> rfl

/-- C1 witness. -/
theorem getGreeting_eq_getGreeting1_on_safe_names_witness :
    getGreeting (UserInput.obj (JSVal.str "John Watson")) =
      getGreeting1 (UserInput.obj (JSVal.str "John Watson")) :=
  getGreeting_eq_getGreeting1_on_safe_names (JSVal.str "John Watson")
    (Or.inr (Or.inr ⟨"John Watson", rfl⟩))

/-- C3 counterexample: for the name containing a tab, both implementations
return the whole name after "Hi ", not the first whitespace-delimited token
demanded by the spec wording. -/
theorem greeting_whitespace_token_counterexample :
    getGreeting (UserInput.obj (JSVal.str "John\tWatson")) =
      JSOutcome.ret "Hi John\tWatson" ∧
    getGreeting1 (UserInput.obj (JSVal.str "John\tWatson")) =
      JSOutcome.ret "Hi John\tWatson" ∧
    specFirstWhitespaceToken "John\tWatson" = "John" ∧
    ("Hi John\tWatson" : String) ≠
      "Hi " ++ specFirstWhitespaceToken "John\tWatson" := by
  decide

/-- C3 amended: on a string name both implementations return "Hi " followed
by the text before the first space character (split(' ')[0]); on a missing
or null name both return exactly "Hi ". -/
theorem greeting_first_space_token (name : JSVal) :
    (∀ s, name = JSVal.str s →
      getGreeting (UserInput.obj name) =
        JSOutcome.ret ("Hi " ++ splitSpaceHead s) ∧
      getGreeting1 (UserInput.obj name) =
        JSOutcome.ret ("Hi " ++ splitSpaceHead s)) ∧
    (name = JSVal.undefined ∨ name = JSVal.null →
      getGreeting (UserInput.obj name) = JSOutcome.ret "Hi " ∧
      getGreeting1 (UserInput.obj name) = JSOutcome.ret "Hi ") := by
  constructor
  · intro s hs
    subst hs
    exact ⟨rfl, rfl⟩
  · intro h
    rcases h with h | h <;> subst h <;> exact ⟨rfl, rfl⟩

/-- C3 witness. -/
theorem greeting_first_space_token_witness :
    getGreeting (UserInput.obj (JSVal.str "John Watson")) =
      JSOutcome.ret "Hi John" ∧
    getGreeting1 (UserInput.obj JSVal.undefined) = JSOutcome.ret "Hi " := by
  constructor
  · exact (((greeting_first_space_token (JSVal.str "John Watson")).1
      "John Watson" rfl).1).trans (by decide)
  · exact ((greeting_first_space_token JSVal.undefined).2 (Or.inl rfl)).2



/-- C4: getQuotation1 returns 500 when the lookup resolves with age under
30, 300 when it resolves with age at least 30, and 0 on any rejection, for
every rejection reason. -/
theorem getQuotation1_spec (userEmail : String)
    (getUserDetails : String → LookupOutcome) :
    (∀ d, getUserDetails userEmail = LookupOutcome.resolved d →
      (d.age < 30 → getQuotation1 userEmail getUserDetails = 500) ∧
      (30 ≤ d.age → getQuotation1 userEmail getUserDetails = 300)) ∧
    (∀ reason, getUserDetails userEmail = LookupOutcome.rejected reason →
      getQuotation1 userEmail getUserDetails = 0) := by
  refine ⟨fun d hd => ⟨fun hage => ?_, fun hage => ?_⟩, fun reason hr => ?_⟩
  · simp [getQuotation1, hd, hage]
  · simp [getQuotation1, hd]
    omega
  · simp [getQuotation1, hr]

/-- C4 witness. -/
theorem getQuotation1_spec_witness :
    getQuotation1 "john.w@gmail.com"
      (fun _ => LookupOutcome.resolved ⟨"John Watson", "john.w@gmail.com", 20⟩) = 500 ∧
    getQuotation1 "john.w@gmail.com"
      (fun _ => LookupOutcome.resolved ⟨"John Watson", "john.w@gmail.com", 35⟩) = 300 ∧
    getQuotation1 "john.w@gmail.com"
      (fun _ => LookupOutcome.rejected "Timeout Error") = 0 :=
  ⟨((getQuotation1_spec _ _).1 _ rfl).1 (by decide),
   ((getQuotation1_spec _ _).1 _ rfl).2 (by decide),
   (getQuotation1_spec _ _).2 "Timeout Error" rfl⟩

/-- C5: getQuotation2 returns 500 on a Right with age under 30, 300 on a
Right with age at least 30, and 0 on any Left, for both failure reasons. -/
theorem getQuotation2_spec (userEmail : String)
    (getUserDetails : String → Either UserServiceErrors UserDetails) :
    (∀ d, getUserDetails userEmail = Either.right d →
      (d.age < 30 → getQuotation2 userEmail getUserDetails = 500) ∧
      (30 ≤ d.age → getQuotation2 userEmail getUserDetails = 300)) ∧
    (∀ e, getUserDetails userEmail = Either.left e →
      getQuotation2 userEmail getUserDetails = 0) := by
  refine ⟨fun d hd => ⟨fun hage => ?_, fun hage => ?_⟩, fun e he => ?_⟩
  · simp [getQuotation2, hd, hage]
  · simp [getQuotation2, hd]
    omega
  · simp [getQuotation2, he]

/-- C5 witness, exercising both failure reasons. -/
theorem getQuotation2_spec_witness :
    getQuotation2 "john.w@gmail.com"
      (fun _ => Either.right ⟨"John Watson", "john.w@gmail.com", 20⟩) = 500 ∧
    getQuotation2 "john.w@gmail.com"
      (fun _ => Either.right ⟨"John Watson", "john.w@gmail.com", 35⟩) = 300 ∧
    getQuotation2 "john.w@gmail.com"
      (fun _ => Either.left UserServiceErrors.userNotFound) = 0 ∧
    getQuotation2 "john.w@gmail.com"
      (fun _ => Either.left UserServiceErrors.serviceNotAvailable) = 0 :=
  ⟨((getQuotation2_spec _ _).1 _ rfl).1 (by decide),
   ((getQuotation2_spec _ _).1 _ rfl).2 (by decide),
   (getQuotation2_spec _ _).2 UserServiceErrors.userNotFound rfl,
   (getQuotation2_spec _ _).2 UserServiceErrors.serviceNotAvailable rfl⟩

/-- C6: with age exactly 30 both quotation workflows return 300; the age
comparison is strict. -/
theorem quotation_age_exactly_30 (userEmail : String) (d : UserDetails)
    (h : d.age = 30) :
    getQuotation1 userEmail (fun _ => LookupOutcome.resolved d) = 300 ∧
    getQuotation2 userEmail (fun _ => Either.right d) = 300 := by
  constructor <;> simp [getQuotation1, getQuotation2, h]

/-- C6 witness. -/
theorem quotation_age_exactly_30_witness :
    getQuotation1 "john.w@gmail.com"
      (fun _ => LookupOutcome.resolved ⟨"John Watson", "john.w@gmail.com", 30⟩) = 300 ∧
    getQuotation2 "john.w@gmail.com"
      (fun _ => Either.right ⟨"John Watson", "john.w@gmail.com", 30⟩) = 300 :=
  quotation_age_exactly_30 "john.w@gmail.com"
    ⟨"John Watson", "john.w@gmail.com", 30⟩ rfl

/-- C7: the two quotation workflows are equivalent: a lookup resolving with
details d gives both the same premium, and a rejecting lookup gives
variant A the premium 0, the same as variant B on any Left. -/
theorem quotation_workflows_equivalent (userEmail : String) :
    (∀ d : UserDetails,
      getQuotation1 userEmail (fun _ => LookupOutcome.resolved d) =
        getQuotation2 userEmail (fun _ => Either.right d)) ∧
    (∀ (reason : String) (e : UserServiceErrors),
      getQuotation1 userEmail (fun _ => LookupOutcome.rejected reason) = 0 ∧
      getQuotation1 userEmail (fun _ => LookupOutcome.rejected reason) =
        getQuotation2 userEmail (fun _ => Either.left e)) :=
  ⟨fun _ => rfl, fun _ _ => ⟨rfl, rfl⟩⟩

/-- C9: whatever the lookup does, each quotation workflow returns one of
exactly 0, 300, or 500. -/
theorem quotation_premium_in_range (userEmail : String)
    (lookupA : String → LookupOutcome)
    (lookupB : String → Either UserServiceErrors UserDetails) :
    (getQuotation1 userEmail lookupA = 0 ∨
      getQuotation1 userEmail lookupA = 300 ∨
      getQuotation1 userEmail lookupA = 500) ∧
    (getQuotation2 userEmail lookupB = 0 ∨
      getQuotation2 userEmail lookupB = 300 ∨
      getQuotation2 userEmail lookupB = 500) := by
  constructor
  · unfold getQuotation1
    cases lookupA userEmail with
    | resolved d =>
      by_cases h : d.age < 30 <;> simp [h]
    | rejected reason => simp
  · unfold getQuotation2
    cases lookupB userEmail with
    | right d =>
      by_cases h : d.age < 30 <;> simp [h]
    | left e => simp

/-- C8 counterexample: getGreeting1 surfaces an unhandled TypeError both on
a nullish user and on a user whose name is a non-nil non-string. -/
theorem getGreeting1_thrown_counterexample :
    getGreeting1 UserInput.nullish = JSOutcome.thrown ∧
    getGreeting1 (UserInput.obj (JSVal.num 42)) = JSOutcome.thrown := by
  decide

/-- C8 amended: getGreeting returns normally on every input, and getGreeting1
returns normally on every user object whose name is nil or a string
(squareOfSecondElement contains no throwing operation, so its embedding is a
total function into Int). -/
theorem greetings_return_normally (user : UserInput) (name : JSVal)
    (h : isNil name = true ∨ ∃ s, name = JSVal.str s) :
    (∃ s, getGreeting user = JSOutcome.ret s) ∧
    (∃ s, getGreeting1 (UserInput.obj name) = JSOutcome.ret s) := by
  constructor
  · cases user with
    | nullish => exact ⟨"Hi ", rfl⟩
    | obj n => cases n <;> exact ⟨_, rfl⟩
  · rcases h with h | ⟨s, hs⟩
    · cases name <;> simp [isNil] at h <;> exact ⟨"Hi ", rfl⟩
    · subst hs
      exact ⟨_, rfl⟩

/-- C8 witness. -/
theorem greetings_return_normally_witness :
    (∃ s, getGreeting UserInput.nullish = JSOutcome.ret s) ∧
    (∃ s, getGreeting1 (UserInput.obj JSVal.null) = JSOutcome.ret s) :=
  greetings_return_normally UserInput.nullish JSVal.null (Or.inl rfl)

/-- C10: every string either greeting implementation returns starts with
"Hi ". -/
theorem greetings_ret_start_with_Hi (user : UserInput) (s : String)
    (h : getGreeting user = JSOutcome.ret s ∨
      getGreeting1 user = JSOutcome.ret s) :
    ∃ r, s = "Hi " ++ r := by
  cases user with
  | nullish =>
    rcases h with h | h
    · simp [getGreeting, greetTryBody] at h
      exact ⟨"", by rw [← h]; decide⟩
    · simp [getGreeting1] at h
  | obj name =>
    cases name <;>
      rcases h with h | h <;>
        simp [getGreeting, getGreeting1, greetTryBody, isNil] at h <;>
          first
            | exact ⟨"", by rw [← h]; decide⟩
            | exact ⟨_, h.symm⟩

/-- C10 witness. -/
theorem greetings_ret_start_with_Hi_witness :
    ∃ r, "Hi John" = "Hi " ++ r :=
  greetings_ret_start_with_Hi (UserInput.obj (JSVal.str "John Watson"))
    "Hi John" (Or.inl (by decide))


end ErrorHandling
